import Mathlib

/-!
Verification development for the WOfS point-based validation pipeline
(notebook source: Notebooks/Processing_S2.ipynb).

Bands are modelled as rational-valued grids indexed by an abstract pixel
index type; machine floating point is modelled by the rationals, so the
claims below speak about pixels whose feature values are real numbers
(no NaN exists in this model).
-/

/-- Normalized ratio index, from the nested helper in wofs_classify
(the source names it a band ratio): (a - b) / (a + b). -/
def ndiOf (a b : ℚ) : ℚ := (a - b) / (a + b)

/-- Per-pixel transcription of the nested function that runs the regression
tree inside wofs_classify.  The source operates on whole numpy grids with
boolean-mask overwrites (classified[mask] = v); elementwise this is the
sequence of conditional overwrites below, in the exact source order, with
the same rule names r1..r22 and the same scratch masks.  The initial value
comes from np.full(shape, no_data); the uint8 cast of that fill value is
irrelevant because the overwrites below are exhaustive for rational
inputs. -/
def run_regression (no_data band1 band2 band3 band4 band5 band7 : ℚ) : ℚ :=
  let ndi_52 := ndiOf band5 band2
  let ndi_43 := ndiOf band4 band3
  let ndi_72 := ndiOf band7 band2
  let classified := no_data
  -- Left branch
  let r1 := decide (ndi_52 ≤ -0.01)
  let r2 := decide (band1 ≤ 2083.5)
  let classified := if r1 && !r2 then 0 else classified   -- Node 3
  let r3 := decide (band7 ≤ 323.5)
  let tmp := r1 && r2
  let tmp2 := tmp && r3
  let tmp := tmp && !r3
  let r4 := decide (ndi_43 ≤ 0.61)
  let classified := if tmp2 && r4 then 1 else classified  -- Node 6
  let classified := if tmp2 && !r4 then 0 else classified -- Node 7
  let r5 := decide (band1 ≤ 1400.5)
  let tmp2 := tmp && !r5
  let r6 := decide (ndi_43 ≤ -0.01)
  let classified := if tmp2 && r6 then 1 else classified  -- Node 10
  let classified := if tmp2 && !r6 then 0 else classified -- Node 11
  let tmp := tmp && r5
  let r7 := decide (ndi_72 ≤ -0.23)
  let tmp2 := tmp && !r7
  let r8 := decide (band1 ≤ 379)
  let classified := if tmp2 && r8 then 1 else classified  -- Node 14
  let classified := if tmp2 && !r8 then 0 else classified -- Node 15
  let tmp := tmp && r7
  let r9 := decide (ndi_43 ≤ 0.22)
  let classified := if tmp && r9 then 1 else classified   -- Node 17
  let tmp := tmp && !r9
  let r10 := decide (band1 ≤ 473)
  let classified := if tmp && r10 then 1 else classified  -- Node 19
  let classified := if tmp && !r10 then 0 else classified -- Node 20
  -- Right branch
  let r1 := !r1
  let r11 := decide (ndi_52 ≤ 0.23)
  let tmp := r1 && r11
  let r12 := decide (band1 ≤ 334.5)
  let tmp2 := tmp && !r12
  let classified := if tmp2 then 0 else classified        -- Node 23
  let tmp := tmp && r12
  let r13 := decide (ndi_43 ≤ 0.54)
  let tmp2 := tmp && !r13
  let classified := if tmp2 then 0 else classified        -- Node 25
  let tmp := tmp && r13
  let r14 := decide (ndi_52 ≤ 0.12)
  let tmp2 := tmp && r14
  let classified := if tmp2 then 1 else classified        -- Node 27
  let tmp := tmp && !r14
  let r15 := decide (band3 ≤ 364.5)
  let tmp2 := tmp && r15
  let r16 := decide (band1 ≤ 129.5)
  let classified := if tmp2 && r16 then 1 else classified -- Node 31
  let classified := if tmp2 && !r16 then 0 else classified -- Node 32
  let tmp := tmp && !r15
  let r17 := decide (band1 ≤ 300.5)
  let tmp2 := tmp && !r17
  let tmp := tmp && r17
  let classified := if tmp then 1 else classified         -- Node 33
  let classified := if tmp2 then 0 else classified        -- Node 34
  let tmp := r1 && !r11
  let r18 := decide (ndi_52 ≤ 0.34)
  let classified := if tmp && !r18 then 0 else classified -- Node 36
  let tmp := tmp && r18
  let r19 := decide (band1 ≤ 249.5)
  let classified := if tmp && !r19 then 0 else classified -- Node 38
  let tmp := tmp && r19
  let r20 := decide (ndi_43 ≤ 0.45)
  let classified := if tmp && !r20 then 0 else classified -- Node 40
  let tmp := tmp && r20
  let r21 := decide (band3 ≤ 364.5)
  let classified := if tmp && !r21 then 0 else classified -- Node 42
  let tmp := tmp && r21
  let r22 := decide (band1 ≤ 129.5)
  let classified := if tmp && r22 then 1 else classified  -- Node 44
  let classified := if tmp && !r22 then 0 else classified -- Node 45
  classified

/-- Decision table transcribed from the words of the specification
(section 4.2): an ordered first-match-wins rule list, left branch when
ndi_52 is at most -0.01, otherwise sub-branch A when ndi_52 is at most
0.23 and sub-branch B above that.  This definition follows the spec text,
to be compared with run_regression, which follows the source. -/
def spec_decision_table (ndi_52 ndi_43 ndi_72 b1 b3 b7 : ℚ) : ℚ :=
  if ndi_52 ≤ -0.01 then
    if b1 > 2083.5 then 0
    else if b7 ≤ 323.5 then (if ndi_43 ≤ 0.61 then 1 else 0)
    else if b1 > 1400.5 then (if ndi_43 ≤ -0.01 then 1 else 0)
    else if ndi_72 > -0.23 then (if b1 ≤ 379 then 1 else 0)
    else if ndi_43 ≤ 0.22 then 1
    else (if b1 ≤ 473 then 1 else 0)
  else if ndi_52 ≤ 0.23 then
    if b1 > 334.5 then 0
    else if ndi_43 > 0.54 then 0
    else if ndi_52 ≤ 0.12 then 1
    else if b3 ≤ 364.5 then (if b1 ≤ 129.5 then 1 else 0)
    else (if b1 ≤ 300.5 then 1 else 0)
  else
    if ndi_52 > 0.34 then 0
    else if b1 > 249.5 then 0
    else if ndi_43 > 0.45 then 0
    else if b3 > 364.5 then 0
    else (if b1 ≤ 129.5 then 1 else 0)

/-- Counts the number of true entries of a boolean list. -/
def countTrue : List Bool → ℕ
  | [] => 0
  | b :: bs => (if b then 1 else 0) + countTrue bs

/-- Branch predicates of the 23 terminal outcomes of the ordered decision
table in section 4.2 of the spec (each rule of the form "1 if C else 0"
contributes two terminal outcomes).  Each entry is the full root-to-leaf
path condition, conjoined root first. -/
def leaf_conditions (n52 n43 n72 b1 b3 b7 : ℚ) : List Bool :=
  [ -- left branch
    decide (n52 ≤ -0.01) && decide (b1 > 2083.5),
    decide (n52 ≤ -0.01) && !decide (b1 > 2083.5) && decide (b7 ≤ 323.5) && decide (n43 ≤ 0.61),
    decide (n52 ≤ -0.01) && !decide (b1 > 2083.5) && decide (b7 ≤ 323.5) && !decide (n43 ≤ 0.61),
    decide (n52 ≤ -0.01) && !decide (b1 > 2083.5) && !decide (b7 ≤ 323.5) && decide (b1 > 1400.5) &&
      decide (n43 ≤ -0.01),
    decide (n52 ≤ -0.01) && !decide (b1 > 2083.5) && !decide (b7 ≤ 323.5) && decide (b1 > 1400.5) &&
      !decide (n43 ≤ -0.01),
    decide (n52 ≤ -0.01) && !decide (b1 > 2083.5) && !decide (b7 ≤ 323.5) && !decide (b1 > 1400.5) &&
      decide (n72 > -0.23) && decide (b1 ≤ 379),
    decide (n52 ≤ -0.01) && !decide (b1 > 2083.5) && !decide (b7 ≤ 323.5) && !decide (b1 > 1400.5) &&
      decide (n72 > -0.23) && !decide (b1 ≤ 379),
    decide (n52 ≤ -0.01) && !decide (b1 > 2083.5) && !decide (b7 ≤ 323.5) && !decide (b1 > 1400.5) &&
      !decide (n72 > -0.23) && decide (n43 ≤ 0.22),
    decide (n52 ≤ -0.01) && !decide (b1 > 2083.5) && !decide (b7 ≤ 323.5) && !decide (b1 > 1400.5) &&
      !decide (n72 > -0.23) && !decide (n43 ≤ 0.22) && decide (b1 ≤ 473),
    decide (n52 ≤ -0.01) && !decide (b1 > 2083.5) && !decide (b7 ≤ 323.5) && !decide (b1 > 1400.5) &&
      !decide (n72 > -0.23) && !decide (n43 ≤ 0.22) && !decide (b1 ≤ 473),
    -- right branch, sub-branch A
    !decide (n52 ≤ -0.01) && decide (n52 ≤ 0.23) && decide (b1 > 334.5),
    !decide (n52 ≤ -0.01) && decide (n52 ≤ 0.23) && !decide (b1 > 334.5) && decide (n43 > 0.54),
    !decide (n52 ≤ -0.01) && decide (n52 ≤ 0.23) && !decide (b1 > 334.5) && !decide (n43 > 0.54) &&
      decide (n52 ≤ 0.12),
    !decide (n52 ≤ -0.01) && decide (n52 ≤ 0.23) && !decide (b1 > 334.5) && !decide (n43 > 0.54) &&
      !decide (n52 ≤ 0.12) && decide (b3 ≤ 364.5) && decide (b1 ≤ 129.5),
    !decide (n52 ≤ -0.01) && decide (n52 ≤ 0.23) && !decide (b1 > 334.5) && !decide (n43 > 0.54) &&
      !decide (n52 ≤ 0.12) && decide (b3 ≤ 364.5) && !decide (b1 ≤ 129.5),
    !decide (n52 ≤ -0.01) && decide (n52 ≤ 0.23) && !decide (b1 > 334.5) && !decide (n43 > 0.54) &&
      !decide (n52 ≤ 0.12) && !decide (b3 ≤ 364.5) && decide (b1 ≤ 300.5),
    !decide (n52 ≤ -0.01) && decide (n52 ≤ 0.23) && !decide (b1 > 334.5) && !decide (n43 > 0.54) &&
      !decide (n52 ≤ 0.12) && !decide (b3 ≤ 364.5) && !decide (b1 ≤ 300.5),
    -- right branch, sub-branch B
    !decide (n52 ≤ -0.01) && !decide (n52 ≤ 0.23) && decide (n52 > 0.34),
    !decide (n52 ≤ -0.01) && !decide (n52 ≤ 0.23) && !decide (n52 > 0.34) && decide (b1 > 249.5),
    !decide (n52 ≤ -0.01) && !decide (n52 ≤ 0.23) && !decide (n52 > 0.34) && !decide (b1 > 249.5) &&
      decide (n43 > 0.45),
    !decide (n52 ≤ -0.01) && !decide (n52 ≤ 0.23) && !decide (n52 > 0.34) && !decide (b1 > 249.5) &&
      !decide (n43 > 0.45) && decide (b3 > 364.5),
    !decide (n52 ≤ -0.01) && !decide (n52 ≤ 0.23) && !decide (n52 > 0.34) && !decide (b1 > 249.5) &&
      !decide (n43 > 0.45) && !decide (b3 > 364.5) && decide (b1 ≤ 129.5),
    !decide (n52 ≤ -0.01) && !decide (n52 ≤ 0.23) && !decide (n52 > 0.34) && !decide (b1 > 249.5) &&
      !decide (n43 > 0.45) && !decide (b3 > 364.5) && !decide (b1 ≤ 129.5) ]

/-- Numeric storage widths of numpy arrays that are relevant to
wofs_classify: the two float widths it normalizes to, plus the integer
widths Sentinel-2 reflectance is delivered in. -/
inductive Dtype where
  | float32 | float64 | uint16 | int16 | int32 | int64
  deriving DecidableEq

variable {ι : Type}

/-- One band variable of an xarray dataset: a storage width together with
the stored per-pixel values.  Values are kept as rationals; astype below
retags the width and keeps the values (rounding of the width conversion is
not modelled; the claims settled here depend only on which grids get
reassigned, not on rounding). -/
structure BandGrid (ι : Type) where
  dtype : Dtype
  values : ι → ℚ

/-- Width conversion of a stored grid (numpy astype), modelled as
retagging; see BandGrid. -/
def astype (d : Dtype) (g : BandGrid ι) : BandGrid ι := { dtype := d, values := g.values }

/-- The six Sentinel-2 reflectance variables wofs_classify reads from its
input dataset: B02 blue, B03 green, B04 red, B08 nir, B11 swir1, B12
swir2. -/
structure DatasetIn (ι : Type) where
  B02 : BandGrid ι
  B03 : BandGrid ι
  B04 : BandGrid ι
  B08 : BandGrid ι
  B11 : BandGrid ι
  B12 : BandGrid ι

/-- Python-level failures of the embedded functions. -/
inductive PyError where
  | nameErrorCreateDefaultCleanMask
  | keyErrorSCL
  | attributeErrorMissingBand
  deriving DecidableEq

/-- Dtype normalization block of wofs_classify.  The source reads the blue
grid's dtype and, in place, casts all six band grids: to float64 when
enforce_float64 is set and the dtype differs from float64; otherwise to
float32 unless the dtype is already float64 or float32. -/
def wofs_cast (enforce_float64 : Bool) (ds : DatasetIn ι) : DatasetIn ι :=
  let dtype := ds.B02.dtype
  if enforce_float64 then
    if dtype ≠ Dtype.float64 then
      { B02 := astype Dtype.float64 ds.B02, B03 := astype Dtype.float64 ds.B03,
        B04 := astype Dtype.float64 ds.B04, B08 := astype Dtype.float64 ds.B08,
        B11 := astype Dtype.float64 ds.B11, B12 := astype Dtype.float64 ds.B12 }
    else ds
  else
    if dtype = Dtype.float64 then ds
    else if dtype ≠ Dtype.float32 then
      { B02 := astype Dtype.float32 ds.B02, B03 := astype Dtype.float32 ds.B03,
        B04 := astype Dtype.float32 ds.B04, B08 := astype Dtype.float32 ds.B08,
        B11 := astype Dtype.float32 ds.B11, B12 := astype Dtype.float32 ds.B12 }
    else ds

/-- Embedding of wofs_classify.  The input dataset is passed by reference
in the source and its band arrays are reassigned in place, so the
embedding returns the post-call dataset state together with the wofs
output grid.  With clean_mask omitted (None) the source calls
create_default_clean_mask, a name that is neither defined in the notebook
nor imported, so that path raises NameError before touching the data;
grepping the repository shows no definition of create_default_clean_mask
anywhere.  The classification itself fills a grid with no_data and
overwrites it per pixel through the regression tree, then keeps the tree
output exactly where the clean mask is true (classified_clean starts as
np.full(..., no_data) and receives classified[clean_mask]). -/
def wofs_classify (dataset_in : DatasetIn ι) (clean_mask : Option (ι → Bool))
    (no_data : ℚ) (enforce_float64 : Bool) :
    Except PyError (DatasetIn ι × (ι → ℚ)) :=
  match clean_mask with
  | none => Except.error PyError.nameErrorCreateDefaultCleanMask
  | some mask =>
    let ds := wofs_cast enforce_float64 dataset_in
    let classified := fun i => run_regression no_data (ds.B02.values i) (ds.B03.values i)
      (ds.B04.values i) (ds.B08.values i) (ds.B11.values i) (ds.B12.values i)
    let classified_clean := fun i => if mask i then classified i else no_data
    Except.ok (ds, classified_clean)

/-- The per-pixel class grid wofs_classify computes for a given dataset
state and clean mask: the regression-tree class where the mask is true,
the no_data sentinel elsewhere. -/
def classify_grid (ds : DatasetIn ι) (clean_mask : ι → Bool) (no_data : ℚ) : ι → ℚ := fun i =>
  if clean_mask i then
    run_regression no_data (ds.B02.values i) (ds.B03.values i) (ds.B04.values i)
      (ds.B08.values i) (ds.B11.values i) (ds.B12.values i)
  else no_data

/-- One time slice of the loaded Sentinel-2 data: the six reflectance
grids and the scene-classification grid SCL. -/
structure S2Slice (ι : Type) where
  blue : ι → ℚ
  green : ι → ℚ
  red : ι → ℚ
  nir : ι → ℚ
  swir1 : ι → ℚ
  swir2 : ι → ℚ
  scl : ι → ℤ

/-- The response of dc.load for one point-month window: presence flags for
the variables the code touches (a datacube load can come back without the
requested variables) and the time-ordered slices.  The time dimension of
the xarray dataset is modelled as the list of slices; wofs_classify is
elementwise over time, y and x, so classifying the stack equals
classifying each slice. -/
structure S2Data (ι : Type) where
  hasB02 : Bool
  hasB03 : Bool
  hasB04 : Bool
  hasB08 : Bool
  hasB11 : Bool
  hasB12 : Bool
  hasSCL : Bool
  scenes : List (S2Slice ι)

/-- Clean-mask construction of get_wofs_for_point:
np.isin(s2_data[SCL], [4, 5, 6, 7, 11]). -/
def isin_clean (scl : ι → ℤ) : ι → Bool := fun i =>
  decide (scl i ∈ ([4, 5, 6, 7, 11] : List ℤ))

/-- The wofs grid of one time slice: the regression-tree class where the
clean mask is true, no_data elsewhere (the core of the wofs_classify call
inside get_wofs_for_point, which passes clean_mask built from SCL). -/
def slice_wofs (no_data : ℚ) (sc : S2Slice ι) : ι → ℚ := fun i =>
  if isin_clean sc.scl i then
    run_regression no_data (sc.blue i) (sc.green i) (sc.red i) (sc.nir i)
      (sc.swir1 i) (sc.swir2 i)
  else no_data

/-- One entry of the clear boolean of get_wofs_for_point:
((wofls == 1) | (wofls == 0)).all over the spatial dims of a slice. -/
def slice_clear [Fintype ι] (w : ι → ℚ) : Bool := decide (∀ i, w i = 1 ∨ w i = 0)

/-- Whether any pixel of a slice is classified wet: (wofls == 1).max over
the slice. -/
def slice_wet [Fintype ι] (w : ι → ℚ) : Bool := decide (∃ i, w i = 1)

/-- Temporal reduction of get_wofs_for_point: clear per slice, n_clear the
sum of the clear booleans, wet the max of the wet mask restricted by
isel(time=clear) when n_clear is positive and 0 otherwise.  Returns
(wet, n_clear). -/
def month_reduce [Fintype ι] (wofls : List (ι → ℚ)) : Bool × ℕ :=
  let clear := wofls.map slice_clear
  let n_clear := clear.count true
  let wet := if 0 < n_clear then (wofls.filter slice_clear).any slice_wet else false
  (wet, n_clear)

/-- The shared result mappings, keyed by (plot id, month); the source uses
string keys of the form plot_month. -/
abbrev ResultsDict := List ((ℕ × ℕ) × ℤ)

/-- dict.update with a single key: overwrites the binding of the key. -/
def dict_update (d : ResultsDict) (k : ℕ × ℕ) (v : ℤ) : ResultsDict :=
  (k, v) :: d.filter (fun e => decide (e.1 ≠ k))

/-- Embedding of get_wofs_for_point, from the presence check of B02
onwards.  If B02 is not in the loaded dataset the source takes the pass
branch: nothing is recorded and no error is raised.  Otherwise it builds
the clean mask from SCL (a KeyError if SCL is missing), classifies through
wofs_classify, which reads the remaining bands as attributes of the
dataset (an AttributeError on the first missing one), reduces over time
and records int(wet) and int(n_clear) under the point-month key in the two
shared mappings.  The source passes no_data = np.nan; NaN has no rational
counterpart and is modelled by a sentinel parameter, which is faithful
whenever the sentinel differs from the classes 0 and 1, the only values
the downstream comparisons test. -/
def get_wofs_for_point [Fintype ι] (s2_data : S2Data ι) (no_data : ℚ)
    (plot_id month : ℕ) (results_wet results_clear : ResultsDict) :
    Except PyError (ResultsDict × ResultsDict) :=
  if s2_data.hasB02 = false then Except.ok (results_wet, results_clear)
  else if s2_data.hasSCL = false then Except.error PyError.keyErrorSCL
  else if s2_data.hasB03 = false then Except.error PyError.attributeErrorMissingBand
  else if s2_data.hasB04 = false then Except.error PyError.attributeErrorMissingBand
  else if s2_data.hasB08 = false then Except.error PyError.attributeErrorMissingBand
  else if s2_data.hasB11 = false then Except.error PyError.attributeErrorMissingBand
  else if s2_data.hasB12 = false then Except.error PyError.attributeErrorMissingBand
  else
    let wofls := s2_data.scenes.map (slice_wofs no_data)
    let wn := month_reduce wofls
    Except.ok (dict_update results_wet (plot_id, month) (if wn.1 then 1 else 0),
               dict_update results_clear (plot_id, month) (wn.2 : ℤ))

/-- Cell of pd.crosstab(ACTUAL, PREDICTION): the number of rows with the
given actual and predicted class. -/
def crosstab_cell (rows : List (ℕ × ℕ)) (a p : ℕ) : ℕ :=
  (rows.filter (fun r => decide (r.1 = a) && decide (r.2 = p))).length

/-- Row margin (column All) of the crosstab: rows with the given actual
class. -/
def crosstab_row_all (rows : List (ℕ × ℕ)) (a : ℕ) : ℕ :=
  (rows.filter (fun r => decide (r.1 = a))).length

/-- Column margin (row All) of the crosstab: rows with the given predicted
class. -/
def crosstab_col_all (rows : List (ℕ × ℕ)) (p : ℕ) : ℕ :=
  (rows.filter (fun r => decide (r.2 = p))).length

/-- Grand total (All, All) of the crosstab. -/
def crosstab_grand_all (rows : List (ℕ × ℕ)) : ℕ := rows.length

/-- Producers accuracy of a class, as the notebook computes it:
cell (c, c) over the row margin of c, times 100. -/
def producers_accuracy (rows : List (ℕ × ℕ)) (c : ℕ) : ℚ :=
  (crosstab_cell rows c c : ℚ) / (crosstab_row_all rows c : ℚ) * 100

/-- Users accuracy of a class, as the notebook computes it:
cell (c, c) over the column margin of c, times 100. -/
def users_accuracy (rows : List (ℕ × ℕ)) (c : ℕ) : ℚ :=
  (crosstab_cell rows c c : ℚ) / (crosstab_col_all rows c : ℚ) * 100

/-- Overall accuracy, as the notebook computes it: the two diagonal cells
over the grand total, times 100. -/
def overall_accuracy (rows : List (ℕ × ℕ)) : ℚ :=
  ((crosstab_cell rows 0 0 : ℚ) + (crosstab_cell rows 1 1 : ℚ)) /
    (crosstab_grand_all rows : ℚ) * 100

/-- One row of the merged validation table fed to the accuracy
assessment. -/
structure ValRow where
  plot_id : ℕ
  month : ℕ
  actual : ℕ
  prediction : ℕ
  deriving DecidableEq

/-- The (ACTUAL, PREDICTION) column pair of a table. -/
def row_pairs (rows : List ValRow) : List (ℕ × ℕ) :=
  rows.map (fun r => (r.actual, r.prediction))

/-- Season restriction of the table: the rows whose MONTH is in the
caller-supplied month set (input_data[input_data[MONTH].isin(WetMonth)]). -/
def season_rows (input_data : List ValRow) (season_months : List ℕ) : List ValRow :=
  input_data.filter (fun r => decide (r.month ∈ season_months))

/-- sklearn.metrics.f1_score with the default positive class 1:
2 tp / (2 tp + fp + fn), and 0 when that denominator is 0 (rational
division by zero is 0, matching the sklearn zero_division default). -/
def f1_score (actual prediction : List ℕ) : ℚ :=
  let pairs := actual.zip prediction
  let tp : ℚ := ((pairs.filter (fun q => decide (q.1 = 1) && decide (q.2 = 1))).length : ℚ)
  let fp : ℚ := ((pairs.filter (fun q => decide (q.1 ≠ 1) && decide (q.2 = 1))).length : ℚ)
  let fmiss : ℚ := ((pairs.filter (fun q => decide (q.1 = 1) && decide (q.2 ≠ 1))).length : ℚ)
  2 * tp / (2 * tp + fp + fmiss)

/-- The F-score pair appended to the seasonal confusion matrix by the
accuracy notebook: first the matrix-derived class-0 f-score computed from
the users and producers accuracies of the season crosstab, second
f1_score applied to the ACTUAL and PREDICTION columns of input_data, the
full merged table (not of the season subset). -/
def report_fscore (input_data : List ValRow) (season_months : List ℕ) : ℚ × ℚ :=
  let season := row_pairs (season_rows input_data season_months)
  ((2 * (users_accuracy season 0 * producers_accuracy season 0) /
      (users_accuracy season 0 + producers_accuracy season 0)) / 100,
   f1_score (input_data.map ValRow.actual) (input_data.map ValRow.prediction))

/-- Wet-season months used by the accuracy notebook. -/
def WetMonth : List ℕ := [5, 6, 7, 8, 9, 10]

/-- Constant one-pixel band grid, for concrete instances. -/
def constBand (d : Dtype) (q : ℚ) : BandGrid (Fin 1) :=
  { dtype := d, values := fun _ => q }

/-- Concrete one-pixel dataset stored as uint16 (the width Sentinel-2
reflectance is delivered in), with the band values of the dry scenario of
spec section 8. -/
def ds_uint16 : DatasetIn (Fin 1) :=
  { B02 := constBand Dtype.uint16 200, B03 := constBand Dtype.uint16 200,
    B04 := constBand Dtype.uint16 200, B08 := constBand Dtype.uint16 2000,
    B11 := constBand Dtype.uint16 3000, B12 := constBand Dtype.uint16 100 }

/-- The same concrete one-pixel dataset already stored as float32. -/
def ds_float32 : DatasetIn (Fin 1) :=
  { B02 := constBand Dtype.float32 200, B03 := constBand Dtype.float32 200,
    B04 := constBand Dtype.float32 200, B08 := constBand Dtype.float32 2000,
    B11 := constBand Dtype.float32 3000, B12 := constBand Dtype.float32 100 }

/-- A loaded point-month response that has B02 but is missing the green
band B03. -/
def s2_missing_green : S2Data (Fin 1) :=
  { hasB02 := true, hasB03 := false, hasB04 := true, hasB08 := true,
    hasB11 := true, hasB12 := true, hasSCL := true, scenes := [] }

/-- A loaded point-month response without the blue band B02. -/
def s2_no_B02 : S2Data (Fin 1) :=
  { hasB02 := false, hasB03 := false, hasB04 := false, hasB08 := false,
    hasB11 := false, hasB12 := false, hasSCL := false, scenes := [] }

/-- One clear dry slice over a single-pixel footprint, with the band
values of the scenario of spec section 8 and a clear SCL code. -/
def scene_dry : S2Slice (Fin 1) :=
  { blue := fun _ => 200, green := fun _ => 200, red := fun _ => 200,
    nir := fun _ => 2000, swir1 := fun _ => 3000, swir2 := fun _ => 100,
    scl := fun _ => 4 }

/-- A complete point-month response holding the single dry slice. -/
def s2_dry : S2Data (Fin 1) :=
  { hasB02 := true, hasB03 := true, hasB04 := true, hasB08 := true,
    hasB11 := true, hasB12 := true, hasSCL := true, scenes := [scene_dry] }

/-- The pair counts of the scenario in spec section 8: 40 rows (0,0),
5 rows (0,1), 3 rows (1,0), 52 rows (1,1). -/
def scenario_rows : List (ℕ × ℕ) :=
  List.replicate 40 (0, 0) ++ List.replicate 5 (0, 1) ++
    List.replicate 3 (1, 0) ++ List.replicate 52 (1, 1)

/-- A two-row merged table: one wet-season row (month 5) predicted
correctly wet, one dry-season row (month 1) predicted dry while actually
wet. -/
def c6_input : List ValRow :=
  [{ plot_id := 1, month := 5, actual := 1, prediction := 1 },
   { plot_id := 2, month := 1, actual := 1, prediction := 0 }]

/-- Helper: the decision table only ever returns class 0 or class 1. -/
theorem spec_decision_table_mem (n52 n43 n72 b1 b3 b7 : ℚ) :
    spec_decision_table n52 n43 n72 b1 b3 b7 = 0 ∨ spec_decision_table n52 n43 n72 b1 b3 b7 = 1 := by
  unfold spec_decision_table
  split_ifs <;> simp

/-- Helper: the sequential boolean-mask overwrites of the source tree compute
the same class as the ordered decision table of the spec, for every rational
feature assignment. -/
theorem run_regression_eq_table (nd b1 b2 b3 b4 b5 b7 : ℚ) :
    run_regression nd b1 b2 b3 b4 b5 b7 =
      spec_decision_table (ndiOf b5 b2) (ndiOf b4 b3) (ndiOf b7 b2) b1 b3 b7 := by
  simp only [run_regression]
  generalize ndiOf b5 b2 = n52
  generalize ndiOf b4 b3 = n43
  generalize ndiOf b7 b2 = n72
  rcases le_or_lt n52 (-0.01 : ℚ) with h1 | h1
  · rcases le_or_lt b1 (2083.5 : ℚ) with h2 | h2
    · rcases le_or_lt b7 (323.5 : ℚ) with h3 | h3
      · rcases le_or_lt n43 (0.61 : ℚ) with h4 | h4
        · simp [spec_decision_table, h1, h1.not_lt, h2, h2.not_lt, h3, h3.not_lt, h4, h4.not_lt]
        · simp [spec_decision_table, h1, h1.not_lt, h2, h2.not_lt, h3, h3.not_lt, h4, h4.not_le]
      · rcases le_or_lt b1 (1400.5 : ℚ) with h4 | h4
        · rcases le_or_lt n72 (-0.23 : ℚ) with h5 | h5
          · rcases le_or_lt n43 (0.22 : ℚ) with h6 | h6
            · simp [spec_decision_table, h1, h1.not_lt, h2, h2.not_lt, h3, h3.not_le,
                h4, h4.not_lt, h5, h5.not_lt, h6, h6.not_lt]
            · rcases le_or_lt b1 (473 : ℚ) with h7 | h7
              · simp [spec_decision_table, h1, h1.not_lt, h2, h2.not_lt, h3, h3.not_le,
                  h4, h4.not_lt, h5, h5.not_lt, h6, h6.not_le, h7, h7.not_lt]
              · simp [spec_decision_table, h1, h1.not_lt, h2, h2.not_lt, h3, h3.not_le,
                  h4, h4.not_lt, h5, h5.not_lt, h6, h6.not_le, h7, h7.not_le]
          · rcases le_or_lt b1 (379 : ℚ) with h6 | h6
            · simp [spec_decision_table, h1, h1.not_lt, h2, h2.not_lt, h3, h3.not_le,
                h4, h4.not_lt, h5, h5.not_le, h6, h6.not_lt]
            · simp [spec_decision_table, h1, h1.not_lt, h2, h2.not_lt, h3, h3.not_le,
                h4, h4.not_lt, h5, h5.not_le, h6, h6.not_le]
        · rcases le_or_lt n43 (-0.01 : ℚ) with h5 | h5
          · simp [spec_decision_table, h1, h1.not_lt, h2, h2.not_lt, h3, h3.not_le,
              h4, h4.not_le, h5, h5.not_lt]
          · simp [spec_decision_table, h1, h1.not_lt, h2, h2.not_lt, h3, h3.not_le,
              h4, h4.not_le, h5, h5.not_le]
    · simp [spec_decision_table, h1, h1.not_lt, h2, h2.not_le]
  · rcases le_or_lt n52 (0.23 : ℚ) with h2 | h2
    · rcases le_or_lt b1 (334.5 : ℚ) with h3 | h3
      · rcases le_or_lt n43 (0.54 : ℚ) with h4 | h4
        · rcases le_or_lt n52 (0.12 : ℚ) with h5 | h5
          · simp [spec_decision_table, h1, h1.not_le, h2, h2.not_lt, h3, h3.not_lt,
              h4, h4.not_lt, h5, h5.not_lt]
          · rcases le_or_lt b3 (364.5 : ℚ) with h6 | h6
            · rcases le_or_lt b1 (129.5 : ℚ) with h7 | h7
              · simp [spec_decision_table, h1, h1.not_le, h2, h2.not_lt, h3, h3.not_lt,
                  h4, h4.not_lt, h5, h5.not_le, h6, h6.not_lt, h7, h7.not_lt]
              · simp [spec_decision_table, h1, h1.not_le, h2, h2.not_lt, h3, h3.not_lt,
                  h4, h4.not_lt, h5, h5.not_le, h6, h6.not_lt, h7, h7.not_le]
            · rcases le_or_lt b1 (300.5 : ℚ) with h7 | h7
              · simp [spec_decision_table, h1, h1.not_le, h2, h2.not_lt, h3, h3.not_lt,
                  h4, h4.not_lt, h5, h5.not_le, h6, h6.not_le, h7, h7.not_lt]
              · simp [spec_decision_table, h1, h1.not_le, h2, h2.not_lt, h3, h3.not_lt,
                  h4, h4.not_lt, h5, h5.not_le, h6, h6.not_le, h7, h7.not_le]
        · simp [spec_decision_table, h1, h1.not_le, h2, h2.not_lt, h3, h3.not_lt, h4, h4.not_le]
      · simp [spec_decision_table, h1, h1.not_le, h2, h2.not_lt, h3, h3.not_le]
    · rcases le_or_lt n52 (0.34 : ℚ) with h3 | h3
      · rcases le_or_lt b1 (249.5 : ℚ) with h4 | h4
        · rcases le_or_lt n43 (0.45 : ℚ) with h5 | h5
          · rcases le_or_lt b3 (364.5 : ℚ) with h6 | h6
            · rcases le_or_lt b1 (129.5 : ℚ) with h7 | h7
              · simp [spec_decision_table, h1, h1.not_le, h2, h2.not_le, h3, h3.not_lt,
                  h4, h4.not_lt, h5, h5.not_lt, h6, h6.not_lt, h7, h7.not_lt]
              · simp [spec_decision_table, h1, h1.not_le, h2, h2.not_le, h3, h3.not_lt,
                  h4, h4.not_lt, h5, h5.not_lt, h6, h6.not_lt, h7, h7.not_le]
            · simp [spec_decision_table, h1, h1.not_le, h2, h2.not_le, h3, h3.not_lt,
                h4, h4.not_lt, h5, h5.not_lt, h6, h6.not_le]
          · simp [spec_decision_table, h1, h1.not_le, h2, h2.not_le, h3, h3.not_lt,
              h4, h4.not_lt, h5, h5.not_le]
        · simp [spec_decision_table, h1, h1.not_le, h2, h2.not_le, h3, h3.not_lt, h4, h4.not_le]
      · simp [spec_decision_table, h1, h1.not_le, h2, h2.not_le, h3, h3.not_le]

/-- C8: for every assignment of rational values to the decision features
(the three normalized indices together with the blue, red and swir2 raw
bands that the branch predicates read), exactly one terminal outcome of
the section 4.2 decision table applies: the path conditions are pairwise
mutually exclusive and jointly exhaustive. -/
theorem spec_tree_exactly_one_leaf (n52 n43 n72 b1 b3 b7 : ℚ) :
    countTrue (leaf_conditions n52 n43 n72 b1 b3 b7) = 1 := by
  rcases le_or_lt n52 (-0.01 : ℚ) with h1 | h1
  · rcases le_or_lt b1 (2083.5 : ℚ) with h2 | h2
    · rcases le_or_lt b7 (323.5 : ℚ) with h3 | h3
      · rcases le_or_lt n43 (0.61 : ℚ) with h4 | h4
        · simp [leaf_conditions, countTrue, h1, h1.not_lt, h2, h2.not_lt, h3, h3.not_lt, h4, h4.not_lt]
        · simp [leaf_conditions, countTrue, h1, h1.not_lt, h2, h2.not_lt, h3, h3.not_lt, h4, h4.not_le]
      · rcases le_or_lt b1 (1400.5 : ℚ) with h4 | h4
        · rcases le_or_lt n72 (-0.23 : ℚ) with h5 | h5
          · rcases le_or_lt n43 (0.22 : ℚ) with h6 | h6
            · simp [leaf_conditions, countTrue, h1, h1.not_lt, h2, h2.not_lt, h3, h3.not_le,
                h4, h4.not_lt, h5, h5.not_lt, h6, h6.not_lt]
            · rcases le_or_lt b1 (473 : ℚ) with h7 | h7
              · simp [leaf_conditions, countTrue, h1, h1.not_lt, h2, h2.not_lt, h3, h3.not_le,
                  h4, h4.not_lt, h5, h5.not_lt, h6, h6.not_le, h7, h7.not_lt]
              · simp [leaf_conditions, countTrue, h1, h1.not_lt, h2, h2.not_lt, h3, h3.not_le,
                  h4, h4.not_lt, h5, h5.not_lt, h6, h6.not_le, h7, h7.not_le]
          · rcases le_or_lt b1 (379 : ℚ) with h6 | h6
            · simp [leaf_conditions, countTrue, h1, h1.not_lt, h2, h2.not_lt, h3, h3.not_le,
                h4, h4.not_lt, h5, h5.not_le, h6, h6.not_lt]
            · simp [leaf_conditions, countTrue, h1, h1.not_lt, h2, h2.not_lt, h3, h3.not_le,
                h4, h4.not_lt, h5, h5.not_le, h6, h6.not_le]
        · rcases le_or_lt n43 (-0.01 : ℚ) with h5 | h5
          · simp [leaf_conditions, countTrue, h1, h1.not_lt, h2, h2.not_lt, h3, h3.not_le,
              h4, h4.not_le, h5, h5.not_lt]
          · simp [leaf_conditions, countTrue, h1, h1.not_lt, h2, h2.not_lt, h3, h3.not_le,
              h4, h4.not_le, h5, h5.not_le]
    · simp [leaf_conditions, countTrue, h1, h1.not_lt, h2, h2.not_le]
  · rcases le_or_lt n52 (0.23 : ℚ) with h2 | h2
    · rcases le_or_lt b1 (334.5 : ℚ) with h3 | h3
      · rcases le_or_lt n43 (0.54 : ℚ) with h4 | h4
        · rcases le_or_lt n52 (0.12 : ℚ) with h5 | h5
          · simp [leaf_conditions, countTrue, h1, h1.not_le, h2, h2.not_lt, h3, h3.not_lt,
              h4, h4.not_lt, h5, h5.not_lt]
          · rcases le_or_lt b3 (364.5 : ℚ) with h6 | h6
            · rcases le_or_lt b1 (129.5 : ℚ) with h7 | h7
              · simp [leaf_conditions, countTrue, h1, h1.not_le, h2, h2.not_lt, h3, h3.not_lt,
                  h4, h4.not_lt, h5, h5.not_le, h6, h6.not_lt, h7, h7.not_lt]
              · simp [leaf_conditions, countTrue, h1, h1.not_le, h2, h2.not_lt, h3, h3.not_lt,
                  h4, h4.not_lt, h5, h5.not_le, h6, h6.not_lt, h7, h7.not_le]
            · rcases le_or_lt b1 (300.5 : ℚ) with h7 | h7
              · simp [leaf_conditions, countTrue, h1, h1.not_le, h2, h2.not_lt, h3, h3.not_lt,
                  h4, h4.not_lt, h5, h5.not_le, h6, h6.not_le, h7, h7.not_lt]
              · simp [leaf_conditions, countTrue, h1, h1.not_le, h2, h2.not_lt, h3, h3.not_lt,
                  h4, h4.not_lt, h5, h5.not_le, h6, h6.not_le, h7, h7.not_le]
        · simp [leaf_conditions, countTrue, h1, h1.not_le, h2, h2.not_lt, h3, h3.not_lt, h4, h4.not_le]
      · simp [leaf_conditions, countTrue, h1, h1.not_le, h2, h2.not_lt, h3, h3.not_le]
    · rcases le_or_lt n52 (0.34 : ℚ) with h3 | h3
      · rcases le_or_lt b1 (249.5 : ℚ) with h4 | h4
        · rcases le_or_lt n43 (0.45 : ℚ) with h5 | h5
          · rcases le_or_lt b3 (364.5 : ℚ) with h6 | h6
            · rcases le_or_lt b1 (129.5 : ℚ) with h7 | h7
              · simp [leaf_conditions, countTrue, h1, h1.not_le, h2, h2.not_le, h3, h3.not_lt,
                  h4, h4.not_lt, h5, h5.not_lt, h6, h6.not_lt, h7, h7.not_lt]
              · simp [leaf_conditions, countTrue, h1, h1.not_le, h2, h2.not_le, h3, h3.not_lt,
                  h4, h4.not_lt, h5, h5.not_lt, h6, h6.not_lt, h7, h7.not_le]
            · simp [leaf_conditions, countTrue, h1, h1.not_le, h2, h2.not_le, h3, h3.not_lt,
                h4, h4.not_lt, h5, h5.not_lt, h6, h6.not_le]
          · simp [leaf_conditions, countTrue, h1, h1.not_le, h2, h2.not_le, h3, h3.not_lt,
              h4, h4.not_lt, h5, h5.not_le]
        · simp [leaf_conditions, countTrue, h1, h1.not_le, h2, h2.not_le, h3, h3.not_lt, h4, h4.not_le]
      · simp [leaf_conditions, countTrue, h1, h1.not_le, h2, h2.not_le, h3, h3.not_le]

/-- C1: for every pixel whose decision features are (rational) real
numbers, the class assigned by the regression-tree evaluation of the
source equals the class given by the ordered decision table of spec
section 4.2, with every threshold exactly as listed. -/
theorem wofs_tree_matches_spec_table (nd b1 b2 b3 b4 b5 b7 : ℚ) :
    run_regression nd b1 b2 b3 b4 b5 b7 =
      spec_decision_table (ndiOf b5 b2) (ndiOf b4 b3) (ndiOf b7 b2) b1 b3 b7 :=
  run_regression_eq_table nd b1 b2 b3 b4 b5 b7

/-- Helper: the regression tree always lands on class 0 or class 1 for
rational inputs, whatever fill value it starts from. -/
theorem run_regression_mem (nd b1 b2 b3 b4 b5 b7 : ℚ) :
    run_regression nd b1 b2 b3 b4 b5 b7 = 0 ∨ run_regression nd b1 b2 b3 b4 b5 b7 = 1 := by
  rw [run_regression_eq_table]
  exact spec_decision_table_mem (ndiOf b5 b2) (ndiOf b4 b3) (ndiOf b7 b2) b1 b3 b7

/-- C10: calling wofs_classify with the clean_mask argument omitted always
fails with the NameError raised by the undefined name
create_default_clean_mask, before classifying anything. -/
theorem wofs_classify_none_mask_name_error {ι : Type} (ds : DatasetIn ι) (nd : ℚ) (e64 : Bool) :
    wofs_classify ds none nd e64 = Except.error PyError.nameErrorCreateDefaultCleanMask := rfl

/-- C7 counterexample: on a uint16-stored dataset (the width Sentinel-2
reflectance is delivered in) wofs_classify reassigns the six band grids in
place; after the call the B02 grid of the dataset state is stored float32
while the argument was stored uint16, so the classifier does not leave its
input dataset unchanged. -/
theorem wofs_classify_mutates_uint16_input :
    (wofs_classify ds_uint16 (some (fun _ => true)) (-9999) false).toOption.map
        (fun p => p.1.B02.dtype) = some Dtype.float32 ∧
      ds_uint16.B02.dtype = Dtype.uint16 :=
  ⟨rfl, rfl⟩

/-- C7 amended: wofs_classify is deterministic and performs no I/O, and it
leaves the input dataset unchanged whenever the stored width of the bands
already matches the requested float width (float64 always suffices, and
float32 suffices when enforce_float64 is unset); for any other stored
width it casts the six band grids in place, mutating its argument. -/
theorem wofs_classify_pure_when_float {ι : Type} (ds : DatasetIn ι) (mask : ι → Bool)
    (nd : ℚ) (e64 : Bool)
    (h : ds.B02.dtype = Dtype.float64 ∨ (e64 = false ∧ ds.B02.dtype = Dtype.float32)) :
    wofs_classify ds (some mask) nd e64 = Except.ok (ds, classify_grid ds mask nd) := by
  have hcast : wofs_cast e64 ds = ds := by
    rcases h with h | ⟨he, h⟩
    · cases e64 <;> simp [wofs_cast, h]
    · subst he
      simp [wofs_cast, h]
  show Except.ok (wofs_cast e64 ds, _) = _
  rw [hcast]
  rfl

/-- C7 witness: on a float32-stored dataset without enforce_float64 the
classifier returns its argument unchanged. -/
theorem wofs_classify_pure_when_float_witness :
    (ds_float32.B02.dtype = Dtype.float64 ∨
        (false = false ∧ ds_float32.B02.dtype = Dtype.float32)) ∧
      wofs_classify ds_float32 (some (fun _ => true)) (-9999) false =
        Except.ok (ds_float32, classify_grid ds_float32 (fun _ => true) (-9999)) :=
  ⟨Or.inr ⟨rfl, rfl⟩,
   wofs_classify_pure_when_float ds_float32 (fun _ => true) (-9999) false (Or.inr ⟨rfl, rfl⟩)⟩

/-- C2: for every input dataset of six co-shaped reflectance grids (the
shared pixel index type) and every validity mask of the same shape,
wofs_classify succeeds and every element of the returned grid is 0, 1 or
the no-data sentinel, and an element equals the sentinel exactly at the
positions where the mask is false.  The sentinel is assumed distinct from
the two classes, as in the PixelClass data model of the spec. -/
theorem wofs_classify_output_range {ι : Type} (ds : DatasetIn ι) (mask : ι → Bool)
    (nd : ℚ) (e64 : Bool) (h0 : nd ≠ 0) (h1 : nd ≠ 1) :
    ∃ dsPost,
      wofs_classify ds (some mask) nd e64 = Except.ok (dsPost, classify_grid dsPost mask nd) ∧
        ∀ i, (classify_grid dsPost mask nd i = 0 ∨ classify_grid dsPost mask nd i = 1 ∨
                classify_grid dsPost mask nd i = nd) ∧
          (classify_grid dsPost mask nd i = nd ↔ mask i = false) := by
  refine ⟨wofs_cast e64 ds, rfl, fun i => ?_⟩
  cases hmi : mask i with
  | false => simp [classify_grid, hmi]
  | true =>
    rcases run_regression_mem nd ((wofs_cast e64 ds).B02.values i)
        ((wofs_cast e64 ds).B03.values i) ((wofs_cast e64 ds).B04.values i)
        ((wofs_cast e64 ds).B08.values i) ((wofs_cast e64 ds).B11.values i)
        ((wofs_cast e64 ds).B12.values i) with hm | hm
    · simp [classify_grid, hmi, hm, Ne.symm h0]
    · simp [classify_grid, hmi, hm, Ne.symm h1]

/-- C2 witness: the output-range property instantiated on the concrete
one-pixel float32 dataset with an all-true mask and sentinel -9999. -/
theorem wofs_classify_output_range_witness :
    ((-9999 : ℚ) ≠ 0) ∧ ((-9999 : ℚ) ≠ 1) ∧
      ∃ dsPost,
        wofs_classify ds_float32 (some (fun _ => true)) (-9999) false =
            Except.ok (dsPost, classify_grid dsPost (fun _ => true) (-9999)) ∧
          ∀ i, (classify_grid dsPost (fun _ => true) (-9999) i = 0 ∨
                  classify_grid dsPost (fun _ => true) (-9999) i = 1 ∨
                  classify_grid dsPost (fun _ => true) (-9999) i = -9999) ∧
            (classify_grid dsPost (fun _ => true) (-9999) i = -9999 ↔ (fun _ => true) i = false) :=
  ⟨by norm_num, by norm_num,
   wofs_classify_output_range ds_float32 (fun _ => true) (-9999) false
     (by norm_num) (by norm_num)⟩

/-- C4 counterexample: a point-month response that has the blue band B02
but is missing the green band B03 does not produce an absent result; the
run raises an AttributeError when wofs_classify reads the missing band, so
the claim fails for this input. -/
theorem get_wofs_missing_band_errors :
    get_wofs_for_point s2_missing_green (-9999) 1 5 [] [] =
      Except.error PyError.attributeErrorMissingBand := rfl

/-- C4 amended: only the blue band B02 is checked.  When B02 is absent
from the response the task records no entry in either result mapping and
raises no error; when B02 is present but another required band or the SCL
layer is absent, an exception propagates instead. -/
theorem get_wofs_absent_without_B02 {ι : Type} [Fintype ι] (s2 : S2Data ι) (nd : ℚ)
    (pid m : ℕ) (d1 d2 : ResultsDict) (h : s2.hasB02 = false) :
    get_wofs_for_point s2 nd pid m d1 d2 = Except.ok (d1, d2) := by
  simp [get_wofs_for_point, h]

/-- C4 witness: a response without B02 leaves both result mappings
unchanged and raises nothing. -/
theorem get_wofs_absent_without_B02_witness :
    s2_no_B02.hasB02 = false ∧
      get_wofs_for_point s2_no_B02 (-9999) 1 5 [] [] = Except.ok ([], []) :=
  ⟨rfl, get_wofs_absent_without_B02 s2_no_B02 (-9999) 1 5 [] [] rfl⟩

/-- Helper: summing the booleans of a mapped predicate counts the
satisfying elements. -/
theorem count_true_map_eq_countP {α : Type} (f : α → Bool) (l : List α) :
    (l.map f).count true = l.countP f := by
  induction l with
  | nil => rfl
  | cons x xs ih => cases hx : f x <;> simp [List.count_cons, List.countP_cons, hx, ih]

/-- Helper: every pixel of a slice classification is class 0, class 1 or
the sentinel. -/
theorem slice_wofs_pixel_mem {ι : Type} (nd : ℚ) (sc : S2Slice ι) (i : ι) :
    slice_wofs nd sc i = 0 ∨ slice_wofs nd sc i = 1 ∨ slice_wofs nd sc i = nd := by
  cases hm : isin_clean sc.scl i with
  | false => simp [slice_wofs, hm]
  | true =>
    rcases run_regression_mem nd (sc.blue i) (sc.green i) (sc.red i) (sc.nir i)
        (sc.swir1 i) (sc.swir2 i) with h | h <;> simp [slice_wofs, hm, h]

/-- C3: for a point-month task whose response carries all required bands,
the recorded values are exactly the temporal reduction of the per-slice
classifications; a scene is clear exactly when every footprint pixel is
classified 0 or 1 (equivalently, when no pixel carries the no-data
sentinel); clear_count is the number of clear scenes; wet is the
disjunction, over clear scenes only, of having some pixel classified 1;
a month with clear_count 0 is recorded dry; and wet implies at least one
clear scene. -/
theorem point_month_clear_wet_semantics {ι : Type} [Fintype ι] (s2 : S2Data ι) (nd : ℚ)
    (pid m : ℕ) (d1 d2 : ResultsDict)
    (hb : s2.hasB02 = true ∧ s2.hasB03 = true ∧ s2.hasB04 = true ∧ s2.hasB08 = true ∧
      s2.hasB11 = true ∧ s2.hasB12 = true ∧ s2.hasSCL = true)
    (h0 : nd ≠ 0) (h1 : nd ≠ 1) :
    get_wofs_for_point s2 nd pid m d1 d2 =
      Except.ok
        (dict_update d1 (pid, m)
          (if (month_reduce (s2.scenes.map (slice_wofs nd))).1 then 1 else 0),
         dict_update d2 (pid, m) ((month_reduce (s2.scenes.map (slice_wofs nd))).2 : ℤ)) ∧
    (∀ w ∈ s2.scenes.map (slice_wofs nd),
        (slice_clear w = true ↔ ∀ i, w i = 0 ∨ w i = 1) ∧
        (slice_clear w = true ↔ ∀ i, w i ≠ nd)) ∧
    (month_reduce (s2.scenes.map (slice_wofs nd))).2 =
      (s2.scenes.map (slice_wofs nd)).countP slice_clear ∧
    ((month_reduce (s2.scenes.map (slice_wofs nd))).1 = true ↔
      ∃ w ∈ s2.scenes.map (slice_wofs nd), slice_clear w = true ∧ ∃ i, w i = 1) ∧
    ((month_reduce (s2.scenes.map (slice_wofs nd))).2 = 0 →
      (month_reduce (s2.scenes.map (slice_wofs nd))).1 = false) ∧
    ((month_reduce (s2.scenes.map (slice_wofs nd))).1 = true →
      1 ≤ (month_reduce (s2.scenes.map (slice_wofs nd))).2) := by
  obtain ⟨hb02, hb03, hb04, hb08, hb11, hb12, hscl⟩ := hb
  refine ⟨?_, ?_, ?_, ?_, ?_, ?_⟩
  · simp [get_wofs_for_point, hb02, hb03, hb04, hb08, hb11, hb12, hscl]
  · intro w hw
    rcases List.mem_map.mp hw with ⟨sc, _, rfl⟩
    have ha : slice_clear (slice_wofs nd sc) = true ↔
        ∀ i, slice_wofs nd sc i = 0 ∨ slice_wofs nd sc i = 1 := by
      simp only [slice_clear, decide_eq_true_eq]
      exact forall_congr' fun i => or_comm
    refine ⟨ha, ha.trans ⟨fun hall i => ?_, fun hall i => ?_⟩⟩
    · rcases hall i with h | h
      · rw [h]; exact Ne.symm h0
      · rw [h]; exact Ne.symm h1
    · rcases slice_wofs_pixel_mem nd sc i with h | h | h
      · exact Or.inl h
      · exact Or.inr h
      · exact absurd h (hall i)
  · simp [month_reduce, count_true_map_eq_countP]
  · simp only [month_reduce]
    by_cases hn : 0 < ((s2.scenes.map (slice_wofs nd)).map slice_clear).count true
    · simp only [if_pos hn, List.any_eq_true]
      constructor
      · rintro ⟨w, hwmem, hw⟩
        have hm := List.mem_filter.mp hwmem
        exact ⟨w, hm.1, hm.2, by simpa [slice_wet] using hw⟩
      · rintro ⟨w, hwmem, hclear, hwet⟩
        exact ⟨w, List.mem_filter.mpr ⟨hwmem, hclear⟩, by simpa [slice_wet] using hwet⟩
    · simp only [if_neg hn]
      constructor
      · intro hf
        exact absurd hf (by simp)
      · rintro ⟨w, hwmem, hclear, -⟩
        exact absurd
          (by rw [count_true_map_eq_countP]; exact List.countP_pos_iff.mpr ⟨w, hwmem, hclear⟩) hn
  · intro hz
    by_contra hfw
    have hwt : (month_reduce (s2.scenes.map (slice_wofs nd))).1 = true := by
      revert hfw
      cases (month_reduce (s2.scenes.map (slice_wofs nd))).1 <;> simp
    simp only [month_reduce] at hwt hz
    rw [if_neg (by rw [hz]; exact lt_irrefl 0)] at hwt
    exact Bool.false_ne_true hwt
  · intro hwt
    by_contra hle
    have hz : (month_reduce (s2.scenes.map (slice_wofs nd))).2 = 0 := by omega
    simp only [month_reduce] at hwt hz
    rw [if_neg (by rw [hz]; exact lt_irrefl 0)] at hwt
    exact Bool.false_ne_true hwt

/-- C3 witness: the single clear dry scene of the spec scenario yields a
successful recording and the stated clear and wet semantics. -/
theorem point_month_clear_wet_semantics_witness :
    (s2_dry.hasB02 = true ∧ s2_dry.hasB03 = true ∧ s2_dry.hasB04 = true ∧
        s2_dry.hasB08 = true ∧ s2_dry.hasB11 = true ∧ s2_dry.hasB12 = true ∧
        s2_dry.hasSCL = true) ∧
      ((-9999 : ℚ) ≠ 0) ∧ ((-9999 : ℚ) ≠ 1) ∧
      (get_wofs_for_point s2_dry (-9999) 1 5 [] [] =
        Except.ok
          (dict_update [] (1, 5)
            (if (month_reduce (s2_dry.scenes.map (slice_wofs (-9999)))).1 then 1 else 0),
           dict_update [] (1, 5) ((month_reduce (s2_dry.scenes.map (slice_wofs (-9999)))).2 : ℤ)) ∧
      (∀ w ∈ s2_dry.scenes.map (slice_wofs (-9999)),
          (slice_clear w = true ↔ ∀ i, w i = 0 ∨ w i = 1) ∧
          (slice_clear w = true ↔ ∀ i, w i ≠ (-9999))) ∧
      (month_reduce (s2_dry.scenes.map (slice_wofs (-9999)))).2 =
        (s2_dry.scenes.map (slice_wofs (-9999))).countP slice_clear ∧
      ((month_reduce (s2_dry.scenes.map (slice_wofs (-9999)))).1 = true ↔
        ∃ w ∈ s2_dry.scenes.map (slice_wofs (-9999)), slice_clear w = true ∧ ∃ i, w i = 1) ∧
      ((month_reduce (s2_dry.scenes.map (slice_wofs (-9999)))).2 = 0 →
        (month_reduce (s2_dry.scenes.map (slice_wofs (-9999)))).1 = false) ∧
      ((month_reduce (s2_dry.scenes.map (slice_wofs (-9999)))).1 = true →
        1 ≤ (month_reduce (s2_dry.scenes.map (slice_wofs (-9999)))).2)) :=
  ⟨⟨rfl, rfl, rfl, rfl, rfl, rfl, rfl⟩, by norm_num, by norm_num,
   point_month_clear_wet_semantics s2_dry (-9999) 1 5 [] []
     ⟨rfl, rfl, rfl, rfl, rfl, rfl, rfl⟩ (by norm_num) (by norm_num)⟩

/-- C9: the clear count of a point-month never exceeds the number of
scenes the provider returned, and appending further scenes to the
returned list never decreases it. -/
theorem clear_count_bounded_and_monotone {ι : Type} [Fintype ι] (nd : ℚ)
    (scenes ext : List (S2Slice ι)) :
    (month_reduce (scenes.map (slice_wofs nd))).2 ≤ scenes.length ∧
    (month_reduce (scenes.map (slice_wofs nd))).2 ≤
      (month_reduce ((scenes ++ ext).map (slice_wofs nd))).2 := by
  constructor
  · have h := List.count_le_length true ((scenes.map (slice_wofs nd)).map slice_clear)
    simpa [month_reduce] using h
  · simp only [month_reduce, List.map_append, List.count_append]
    exact Nat.le_add_right _ _

/-- C5: the accuracy engine computes the producers accuracy of a class as
the diagonal cell over the row total times 100, the users accuracy as the
diagonal cell over the column total times 100, and the overall accuracy as
the diagonal sum over the grand total times 100; on the pair counts of the
spec scenario (40, 5, 3, 52) this yields overall accuracy 92, producers
accuracy 52/55 times 100 for class 1 and users accuracy 52/57 times 100
for class 1. -/
theorem accuracy_engine_formulas_and_scenario :
    (∀ (rows : List (ℕ × ℕ)) (c : ℕ),
        producers_accuracy rows c =
          ((rows.countP fun r => decide (r.1 = c) && decide (r.2 = c)) : ℚ) /
            ((rows.countP fun r => decide (r.1 = c)) : ℚ) * 100 ∧
        users_accuracy rows c =
          ((rows.countP fun r => decide (r.1 = c) && decide (r.2 = c)) : ℚ) /
            ((rows.countP fun r => decide (r.2 = c)) : ℚ) * 100) ∧
    (∀ rows : List (ℕ × ℕ),
        overall_accuracy rows =
          (((rows.countP fun r => decide (r.1 = 0) && decide (r.2 = 0)) : ℚ) +
              ((rows.countP fun r => decide (r.1 = 1) && decide (r.2 = 1)) : ℚ)) /
            (rows.length : ℚ) * 100) ∧
    overall_accuracy scenario_rows = 92 ∧
    producers_accuracy scenario_rows 1 = 52 / 55 * 100 ∧
    users_accuracy scenario_rows 1 = 52 / 57 * 100 := by
  have hcell : ∀ (rows : List (ℕ × ℕ)) (a p : ℕ),
      crosstab_cell rows a p = rows.countP fun r => decide (r.1 = a) && decide (r.2 = p) := by
    intro rows a p
    rw [crosstab_cell, List.countP_eq_length_filter]
  have hrow : ∀ (rows : List (ℕ × ℕ)) (a : ℕ),
      crosstab_row_all rows a = rows.countP fun r => decide (r.1 = a) := by
    intro rows a
    rw [crosstab_row_all, List.countP_eq_length_filter]
  have hcol : ∀ (rows : List (ℕ × ℕ)) (p : ℕ),
      crosstab_col_all rows p = rows.countP fun r => decide (r.2 = p) := by
    intro rows p
    rw [crosstab_col_all, List.countP_eq_length_filter]
  have hc00 : crosstab_cell scenario_rows 0 0 = 40 := by decide
  have hc11 : crosstab_cell scenario_rows 1 1 = 52 := by decide
  have hr1 : crosstab_row_all scenario_rows 1 = 55 := by decide
  have hcl1 : crosstab_col_all scenario_rows 1 = 57 := by decide
  have hg : crosstab_grand_all scenario_rows = 100 := by decide
  refine ⟨fun rows c => ⟨?_, ?_⟩, fun rows => ?_, ?_, ?_, ?_⟩
  · rw [producers_accuracy, hcell, hrow]
  · rw [users_accuracy, hcell, hcol]
  · rw [overall_accuracy, hcell, hcell, crosstab_grand_all]
  · rw [overall_accuracy, hc00, hc11, hg]
    norm_num
  · rw [producers_accuracy, hc11, hr1]
    norm_num
  · rw [users_accuracy, hc11, hcl1]
    norm_num

/-- C6 counterexample: on a two-row table with one wet-season row (month
5, actual 1, predicted 1) and one dry-season row (month 1, actual 1,
predicted 0), the second F-score the notebook puts in the wet-season
report is 2/3, computed over both rows, while the F1 of the wet-season
rows alone is 1; so the reported value is not computed from exactly the
rows of the season. -/
theorem report_f1_not_season_restricted :
    (report_fscore c6_input WetMonth).2 ≠
      f1_score ((season_rows c6_input WetMonth).map ValRow.actual)
        ((season_rows c6_input WetMonth).map ValRow.prediction) := by
  norm_num [report_fscore, f1_score, season_rows, c6_input, WetMonth, List.filter, List.zip]

/-- C6 amended: the second F1 value of a seasonal accuracy report is the
standard binary F1 computed from the ACTUAL and PREDICTION columns of the
entire merged table, all seasons included; in particular it does not
depend on the chosen season months. -/
theorem report_f1_uses_full_table (input_data : List ValRow) (sm sm2 : List ℕ) :
    (report_fscore input_data sm).2 =
        f1_score (input_data.map ValRow.actual) (input_data.map ValRow.prediction) ∧
      (report_fscore input_data sm).2 = (report_fscore input_data sm2).2 :=
  ⟨rfl, rfl⟩
